import Mathlib

/-!
Verification of the solar geometry and efficiency engine of `solar_calc`.

The trigonometric kernel (`solar_angle.py`) is embedded over the real
numbers: every Python float expression becomes the corresponding exact real
expression, `math.sqrt`/`np.sin`/`np.cos`/`np.asin`/`np.acos` become
`Real.sqrt`/`Real.sin`/`Real.cos`/`Real.arcsin`/`Real.arccos`, and a Python
`raise` becomes an `Except.error`.

The efficiency profile generator (`fetch_solar_data`) is embedded as an
explicit state machine over one calendar-year variant, parameterised by the
per-minute solar data (so that its control flow — the day-window scan, the
winter/summer toggle, the per-hour record construction — can be analysed
both abstractly and as instantiated with the real-valued kernel).
-/

namespace SolarCalc

noncomputable section

/-- Degrees to radians (`rad` in `solar_angle.py`). -/
def rad (degrees : ℝ) : ℝ := degrees * Real.pi / 180

/-- Radians to degrees (`deg` in `solar_angle.py`). -/
def deg (radians : ℝ) : ℝ := radians * 180 / Real.pi

/-- Solar declination angle in radians (`declination_angle`). -/
def declination_angle (day : ℝ) (is_leap_year : Bool) : ℝ :=
  let day_divisor : ℝ := if is_leap_year then 366 else 365
  Real.arcsin (Real.sin (rad (-23.44)) * Real.cos (rad (
    360 / day_divisor * (day + 10)
    + 360 / Real.pi * 0.0167 * Real.sin (rad (360 / day_divisor * (day - 2))))))

/-- Fractional year in radians (local variable `fractional_year` of `c_lst`). -/
def fractional_year (time day : ℝ) (is_leap_year : Bool) : ℝ :=
  let day_divisor : ℝ := if is_leap_year then 366 else 365
  2 * Real.pi / day_divisor * (day - 1 + (time / 60 - 12) / 24)

/-- Equation-of-time correction in minutes (local variable `eot` of `c_lst`). -/
def eot (time day : ℝ) (is_leap_year : Bool) : ℝ :=
  229.18 * (0.000075
    + 0.001868 * Real.cos (fractional_year time day is_leap_year)
    - 0.032077 * Real.sin (fractional_year time day is_leap_year)
    - 0.014615 * Real.cos (2 * fractional_year time day is_leap_year)
    - 0.040849 * Real.sin (2 * fractional_year time day is_leap_year))

/-- Corrected local solar time in minutes (`c_lst`). -/
def c_lst (time day longitude tz_offset : ℝ) (is_leap_year : Bool) : ℝ :=
  time + eot time day is_leap_year + 4 * (longitude - 15 * tz_offset)

/-- Solar hour angle in radians (`solar_hour_angle`). -/
def solar_hour_angle (time day longitude tz_offset : ℝ) (is_leap_year : Bool) : ℝ :=
  rad (c_lst time day longitude tz_offset is_leap_year / 4 - 180)

/-- Solar elevation angle in radians (`solar_elevation_angle`). -/
def solar_elevation_angle (latitude d_angle sh_angle : ℝ) : ℝ :=
  Real.arcsin (Real.sin (rad latitude) * Real.sin d_angle
    + Real.cos (rad latitude) * Real.cos d_angle * Real.cos sh_angle)

/-- Solar azimuth angle in radians (`solar_azimuth_angle`).  The source
computes an `acos`-based angle `a_angle` (which the return branches never
use), then dispatches on the hour angle in degrees; the final `else` branch
raises `ValueError`, embedded as `Except.error`. -/
def solar_azimuth_angle (latitude d_angle sh_angle e_angle : ℝ) : Except String ℝ :=
  let acos_angle := Real.arccos ((Real.sin d_angle * Real.cos (rad latitude)
      - Real.cos d_angle * Real.sin (rad latitude) * Real.cos sh_angle) / Real.cos e_angle)
  let a_angle := if sh_angle > 0 then rad 360 - acos_angle else acos_angle
  let deg_angle := deg sh_angle
  if deg_angle = 0 then .ok (rad (-90))
  else if deg_angle = -90 then .ok 0
  else if deg_angle = 90 then .ok (rad 180)
  else if deg_angle < -90 ∨ (deg_angle > 0 ∧ deg_angle < 90) ∨ (deg_angle > -90 ∧ deg_angle < 0)
    then .ok (-sh_angle - rad 90)
  else if deg_angle > 90 then .ok (rad 270 - sh_angle)
  else .error "Angle out of bounds"

/-- Elevation/azimuth pair returned by `solar_data`. -/
structure SolarAngles where
  e_angle : ℝ
  a_angle : ℝ

/-- The per-minute solar angles (`solar_data`): declination, hour angle,
elevation, then azimuth (whose quadrant dispatch can raise). -/
def solar_data (latitude longitude day time tz_offset : ℝ) (is_leap_year : Bool) :
    Except String SolarAngles :=
  let d_angle := declination_angle day is_leap_year
  let sh_angle := solar_hour_angle time day longitude tz_offset is_leap_year
  let e_angle := solar_elevation_angle latitude d_angle sh_angle
  (solar_azimuth_angle latitude d_angle sh_angle e_angle).map
    (fun a_angle => ⟨e_angle, a_angle⟩)

/-- Reverse solar vector (`get_solar_vector`).  Note: the source assigns
`c = np.cos(a_angle)` and `d = np.cos(a_angle)` — both locals are the cosine
of the azimuth, exactly as written there. -/
def get_solar_vector (e_angle a_angle : ℝ) : ℝ × ℝ × ℝ :=
  let a := Real.cos e_angle
  let b := Real.sin e_angle
  let c := Real.cos a_angle
  let d := Real.cos a_angle
  let x := Real.sqrt ((b ^ 2 * c ^ 2) / (d ^ 2 + b ^ 2 * c ^ 2))
  let y := -a * Real.sqrt (1 - (b ^ 2 * c ^ 2) / (d ^ 2 + b ^ 2 * c ^ 2))
  let z := b * Real.sqrt (1 - (b ^ 2 * c ^ 2) / (d ^ 2 + b ^ 2 * c ^ 2))
  (x, y, z)

/-- The `acos`-of-normalised-dot-product angle computed by
`get_efficiency_coefficient` (its local variable `angle`). -/
def effAngle (panel_normal solar_vector : ℝ × ℝ × ℝ) : ℝ :=
  let (xa, ya, za) := panel_normal
  let (xb, yb, zb) := solar_vector
  Real.arccos ((xa * xb + ya * yb + za * zb)
    / (Real.sqrt (xa ^ 2 + ya ^ 2 + za ^ 2) * Real.sqrt (xb ^ 2 + yb ^ 2 + zb ^ 2)))

/-- Efficiency coefficient (`get_efficiency_coefficient`): raises when the
angle in degrees is above 90 or below 0, otherwise `(90 - |angle|) / 100`. -/
def get_efficiency_coefficient (panel_normal solar_vector : ℝ × ℝ × ℝ) : Except String ℝ :=
  let deg_angle := deg (effAngle panel_normal solar_vector)
  if deg_angle > 90 then .error "Out of upper bounds"
  else if deg_angle < 0 then .error "Out of lower bounds"
  else .ok ((90 - |deg_angle|) / 100)

/-- Winter panel normal of `fetch_solar_data` (45° tilt). -/
def winter_panel_normal : ℝ × ℝ × ℝ := (0, -Real.cos (rad 45), Real.sin (rad 45))

/-- Summer panel normal of `fetch_solar_data` (also 45° tilt in the source). -/
def summer_panel_normal : ℝ × ℝ × ℝ := (0, -Real.cos (rad 45), Real.sin (rad 45))

/-!
## The efficiency profile generator (`fetch_solar_data`)

`fetch_solar_data` runs one imperative loop per calendar-year variant.  The
loop body is embedded below as explicit state passing, parameterised by the
per-minute data `mi : ℕ → ℕ → Except String MinuteData` (day, minutes since
midnight): for each minute the generator only consumes whether the minute is
valid (sun visible) and the efficiency value against each of the two panel
normals, so `MinuteData` packages exactly those, and `realMinuteInfo` below
instantiates it from the real-valued kernel.  The display-only dictionary
entries `start_time` and `end-time` (formatted strings that no later
computation reads) are not modelled.
-/

/-- What one minute contributes to the generator: the visibility test
`deg(e_angle) >= 0 and -180 < deg(a_angle) < 0`, and the efficiency
coefficient against the winter and the summer panel normal. -/
structure MinuteData where
  valid : Bool
  effW : Except String ℝ
  effS : Except String ℝ

/-- The per-day mutable variables of `fetch_solar_data`:
`has_started`, `day_start_hour`, `day_start_min`, `day_end_hour`,
`day_end_min` — initialised to `False, 0, 0, 0, 0` each day. -/
structure ScanState where
  has_started : Bool
  day_start_hour : ℕ
  day_start_min : ℕ
  day_end_hour : ℕ
  day_end_min : ℕ
deriving DecidableEq

/-- The fresh per-day scan state. -/
def initScanState : ScanState := ⟨false, 0, 0, 0, 0⟩

/-- One minute of the inner loop of `fetch_solar_data`.  Mirrors the source
exactly: on a valid minute the minute's data is appended and, when
`has_started` is false, `day_start_*` are assigned — the source never sets
`has_started` to `True`, and this embedding faithfully preserves that; on an
invalid minute, the `elif has_started` branch updates `day_end_*`. -/
def minuteStep (hour min : ℕ) (md : MinuteData) (angle_data : List MinuteData)
    (s : ScanState) : List MinuteData × ScanState :=
  if md.valid then
    (angle_data ++ [md],
      if ¬ s.has_started then
        { s with day_start_hour := hour, day_start_min := min }
      else s)
  else if s.has_started then
    (angle_data,
      if min = 0 then { s with day_end_hour := hour - 1, day_end_min := 59 }
      else { s with day_end_hour := hour, day_end_min := min })
  else (angle_data, s)

/-- The loop `for min in range(0, 60)` of one hour: minutes `m, m+1, ...`
(`count` of them), threading the hour's `angle_data` list and the scan
state.  A failure of `solar_data` (azimuth `ValueError`) aborts. -/
def scanMinutes (mi : ℕ → ℕ → Except String MinuteData) (day hour : ℕ) :
    ℕ → ℕ → List MinuteData → ScanState → Except String (List MinuteData × ScanState)
  | _, 0, angle_data, s => .ok (angle_data, s)
  | m, count + 1, angle_data, s =>
    (mi day (hour * 60 + m)).bind (fun md =>
      let p := minuteStep hour m md angle_data s
      scanMinutes mi day hour (m + 1) count p.1 p.2)

/-- The loop `for hour in range(5, 22)`, iterating the listed hours and
collecting each hour's `angle_data` keyed by the hour. -/
def scanHours (mi : ℕ → ℕ → Except String MinuteData) (day : ℕ) :
    List ℕ → List (ℕ × List MinuteData) → ScanState →
    Except String (List (ℕ × List MinuteData) × ScanState)
  | [], acc, s => .ok (acc, s)
  | h :: rest, acc, s =>
    (scanMinutes mi day h 0 60 [] s).bind (fun p =>
      scanHours mi day rest (acc ++ [(h, p.1)]) p.2)

/-- The hours `range(5, 22)` = 5..21 of every day. -/
def hourRange : List ℕ := List.range' 5 17

/-- Phase one of one day of `fetch_solar_data`: the 17 hours 5..21. -/
def scanDay (mi : ℕ → ℕ → Except String MinuteData) (day : ℕ) :
    Except String (List (ℕ × List MinuteData) × ScanState) :=
  scanHours mi day hourRange [] initScanState

/-- The `day_min`/`day_hr` arithmetic after the scan, returned as
`(day_min, day_hr)`; the source's ints are embedded as `ℤ`. -/
def dayLength (s : ScanState) : ℤ × ℤ :=
  let first : ℤ × ℤ :=
    if s.day_start_min > 0 then (60 - (s.day_start_min : ℤ), 11 - (s.day_start_hour : ℤ))
    else (0, 12 - (s.day_start_hour : ℤ))
  let day_min := first.1 + (s.day_end_min : ℤ)
  let day_hr := first.2 + (s.day_end_hour : ℤ)
  if day_min > 60 then (day_min - 60, day_hr + 1) else (day_min, day_hr)

/-- The winter/summer update of `fetch_solar_data`, exactly as written:
`if is_winter_angle: if day_hr == 12: is_winter_angle = False` and
symmetrically in the `else` branch. -/
def toggleFlag (is_winter_angle : Bool) (day_hr : ℤ) : Bool :=
  if is_winter_angle then
    (if day_hr = 12 then false else is_winter_angle)
  else
    (if day_hr = 12 then true else is_winter_angle)

/-- One emitted record: `{month, day, hour, efficiency_data}`.  `month` is
the two-digit string of the source, `day` the day of month
(`day - day_subtractor`, a Python int). -/
structure HourRecord where
  month : String
  day : ℤ
  hour : ℕ
  efficiency_data : List ℝ

/-- Phase two, inner loop: the efficiency coefficients of one hour's
`angle_data`, against the panel normal selected by `is_winter_angle`.  A
`ValueError` from `get_efficiency_coefficient` aborts. -/
def hourEfficiencies (is_winter_angle : Bool) :
    List MinuteData → List ℝ → Except String (List ℝ)
  | [], acc => .ok acc
  | md :: rest, acc =>
    ((if is_winter_angle then md.effW else md.effS).bind (fun e =>
      hourEfficiencies is_winter_angle rest (acc ++ [e])))

/-- Phase two of one day: one `HourRecord` per scanned hour, all of them
using the winter/summer flag as it stands after this day's toggle check. -/
def buildRecords (is_winter_angle : Bool) (month : String) (day_of_month : ℤ) :
    List (ℕ × List MinuteData) → List HourRecord → Except String (List HourRecord)
  | [], acc => .ok acc
  | (h, angle_data) :: rest, acc =>
    (hourEfficiencies is_winter_angle angle_data []).bind (fun effs =>
      buildRecords is_winter_angle month day_of_month rest
        (acc ++ [⟨month, day_of_month, h, effs⟩]))

/-- One full day of `fetch_solar_data`: scan the 17 hours, compute
`day_hr`, run the toggle check, then build the day's records with the flag
that resulted from the check (the source's order: toggle before phase two). -/
def processDay (mi : ℕ → ℕ → Except String MinuteData) (mt : ℕ → String × ℤ)
    (day : ℕ) (is_winter_angle : Bool) : Except String (List HourRecord × Bool) :=
  (scanDay mi day).bind (fun p =>
    let flag := toggleFlag is_winter_angle (dayLength p.2).2
    (buildRecords flag (mt day).1 ((day : ℤ) - (mt day).2) p.1 []).map
      (fun recs => (recs, flag)))

/-- The day loop of one year variant: days `d, d+1, ...` (`count` of them),
extending the accumulated record list and threading `is_winter_angle`. -/
def processDays (mi : ℕ → ℕ → Except String MinuteData) (mt : ℕ → String × ℤ) :
    ℕ → ℕ → List HourRecord → Bool → Except String (List HourRecord)
  | _, 0, acc, _ => .ok acc
  | d, count + 1, acc, is_winter_angle =>
    (processDay mi mt d is_winter_angle).bind (fun p =>
      processDays mi mt (d + 1) count (acc ++ p.1) p.2)

/-- One year variant of `fetch_solar_data`: `is_winter_angle` starts
`True` (winter) and the record list starts empty. -/
def processYear (mi : ℕ → ℕ → Except String MinuteData) (mt : ℕ → String × ℤ)
    (days : ℕ) : Except String (List HourRecord) :=
  processDays mi mt 0 days [] true

/-- The regular-year month table: `(month, day_subtractor)` from the
day-of-year, following the `if/elif` chain of the source (every day
0..364 falls in one branch; the final pair is unreachable in the loop). -/
def month_lookup_regular (day : ℕ) : String × ℤ :=
  if day ≤ 30 then ("01", -1)
  else if 31 ≤ day ∧ day ≤ 58 then ("02", 30)
  else if 59 ≤ day ∧ day ≤ 89 then ("03", 58)
  else if 90 ≤ day ∧ day ≤ 119 then ("04", 89)
  else if 120 ≤ day ∧ day ≤ 150 then ("05", 119)
  else if 151 ≤ day ∧ day ≤ 180 then ("06", 150)
  else if 181 ≤ day ∧ day ≤ 211 then ("07", 180)
  else if 212 ≤ day ∧ day ≤ 242 then ("08", 211)
  else if 243 ≤ day ∧ day ≤ 272 then ("09", 242)
  else if 273 ≤ day ∧ day ≤ 303 then ("10", 272)
  else if 304 ≤ day ∧ day ≤ 333 then ("11", 303)
  else if 334 ≤ day ∧ day ≤ 364 then ("12", 333)
  else ("00", 0)

/-- The leap-year month table (February gets the extra day). -/
def month_lookup_leap (day : ℕ) : String × ℤ :=
  if day ≤ 30 then ("01", -1)
  else if 31 ≤ day ∧ day ≤ 59 then ("02", 30)
  else if 60 ≤ day ∧ day ≤ 90 then ("03", 59)
  else if 91 ≤ day ∧ day ≤ 120 then ("04", 90)
  else if 121 ≤ day ∧ day ≤ 151 then ("05", 120)
  else if 152 ≤ day ∧ day ≤ 181 then ("06", 151)
  else if 182 ≤ day ∧ day ≤ 212 then ("07", 181)
  else if 213 ≤ day ∧ day ≤ 243 then ("08", 212)
  else if 244 ≤ day ∧ day ≤ 273 then ("09", 243)
  else if 274 ≤ day ∧ day ≤ 304 then ("10", 273)
  else if 305 ≤ day ∧ day ≤ 334 then ("11", 304)
  else if 335 ≤ day ∧ day ≤ 365 then ("12", 334)
  else ("00", 0)

/-- The per-minute data of the real program, from the kernel: `solar_data`
at `(lat, long, day, hour*60+min, tz_offset = -5)`, the visibility test of
the source, and the efficiency coefficient against each panel normal. -/
def realMinuteInfo (lat long : ℝ) (is_leap_year : Bool) (day time : ℕ) :
    Except String MinuteData :=
  (solar_data lat long (day : ℝ) (time : ℝ) (-5) is_leap_year).map (fun data =>
    { valid := decide (deg data.e_angle ≥ 0 ∧ deg data.a_angle < 0 ∧ deg data.a_angle > -180)
      effW := get_efficiency_coefficient winter_panel_normal
        (get_solar_vector data.e_angle data.a_angle)
      effS := get_efficiency_coefficient summer_panel_normal
        (get_solar_vector data.e_angle data.a_angle) })

/-- The whole of `fetch_solar_data`: the regular 365-day year, then the
leap 366-day year, each restarting with the winter flag. -/
def fetch_solar_data (lat long : ℝ) : Except String (List HourRecord × List HourRecord) :=
  (processYear (realMinuteInfo lat long false) month_lookup_regular 365).bind
    (fun regular_data =>
      (processYear (realMinuteInfo lat long true) month_lookup_leap 366).map
        (fun leap_year_data => (regular_data, leap_year_data)))

/-- Round to three decimal places, the `round(x, 3)` of the aggregator. -/
def round3 (x : ℝ) : ℝ := (round (1000 * x) : ℤ) / 1000

/-- The accumulation loop of `calc_hourly_production` in `__main__.py`
(the value of its local `hourly_production` before the final `/ 60`). -/
def hourly_production_sum (temp cloud_cover : ℝ) (efficiency_data : List ℝ) : ℝ :=
  let temp_c := (temp - 32) / 1.8
  let temp_drop := if temp_c > 25 then 1 - (temp_c - 25) * 0.03 else 1
  efficiency_data.foldl (fun hourly_production min_coefficient =>
    hourly_production
      + round3 (610 * 90 * (min_coefficient * temp_drop * (1 - cloud_cover / 100)) / 1000)) 0

/-- Hourly production in kWh (`calc_hourly_production` in `__main__.py`). -/
def calc_hourly_production (temp cloud_cover : ℝ) (efficiency_data : List ℝ) : ℝ :=
  hourly_production_sum temp cloud_cover efficiency_data / 60

/-!
## Specification-side definitions and concrete inputs

Definitions below are not translations of the source; they state the
properties the spec claims (to be compared with the embedded code), and
supply concrete day profiles on which the generator is evaluated.
-/

/-- Azimuth value the spec describes: `-90°` when the hour angle in degrees
is 0, `0` at `-90`, `180°` at `90`, `-hourAngle - 90°` below `-90` or
strictly inside `(-90, 0)` or `(0, 90)`, and `270° - hourAngle` above 90. -/
def azimuthValue (sh_angle : ℝ) : ℝ :=
  if deg sh_angle = 0 then rad (-90)
  else if deg sh_angle = -90 then 0
  else if deg sh_angle = 90 then rad 180
  else if deg sh_angle < -90 ∨ (deg sh_angle > -90 ∧ deg sh_angle < 0)
      ∨ (deg sh_angle > 0 ∧ deg sh_angle < 90) then -sh_angle - rad 90
  else rad 270 - sh_angle

/-- The spec's per-day hour pattern: each day contributes one record per
hour 5 through 21 inclusive, `n` days in order. -/
def hoursPattern : ℕ → List ℕ
  | 0 => []
  | n + 1 => [5, 6, 7, 8, 9, 10, 11, 12, 13, 14, 15, 16, 17, 18, 19, 20, 21] ++ hoursPattern n

/-- The spec's counting property of a `fetch_solar_data` result: two
sequences of `365 * 17` and `366 * 17` records, hour fields running 5..21
within each day (vacuous when the run aborts with an exception). -/
def yearCounts : Except String (List HourRecord × List HourRecord) → Prop
  | .error _ => True
  | .ok (regular_data, leap_year_data) =>
      regular_data.length = 365 * 17 ∧ leap_year_data.length = 366 * 17 ∧
      regular_data.map HourRecord.hour = hoursPattern 365 ∧
      leap_year_data.map HourRecord.hour = hoursPattern 366

/-- The invariant the spec claims of every efficiency coefficient. -/
def effInRange (x : ℝ) : Prop := 0 ≤ x ∧ x ≤ 0.90

/-- A `MinuteData` whose efficiency values, where defined, are in range. -/
def MDGood (md : MinuteData) : Prop :=
  (∀ r, md.effW = .ok r → effInRange r) ∧ (∀ r, md.effS = .ok r → effInRange r)

/-- A per-minute data source all of whose successful values are good. -/
def MIGood (mi : ℕ → ℕ → Except String MinuteData) : Prop :=
  ∀ day time md, mi day time = .ok md → MDGood md

/-- The spec's range property of a `fetch_solar_data` result: every element
of every record's `efficiency_data` lies in `[0, 0.90]` (vacuous when the
run aborts with an exception). -/
def allEffInRange : Except String (List HourRecord × List HourRecord) → Prop
  | .error _ => True
  | .ok (regular_data, leap_year_data) =>
      ∀ rec ∈ regular_data ++ leap_year_data, ∀ e ∈ rec.efficiency_data, effInRange e

/-- A concrete visibility pattern: the sun is usable exactly at 07:10
(minute 430) and 07:20 (minute 440) of the day. -/
def c1Valid (t : ℕ) : Bool := t == 430 || t == 440

/-- A per-minute data source realising `c1Valid`, with efficiency 0 against
either panel normal. -/
def c1MI : ℕ → ℕ → Except String MinuteData := fun _ t => .ok ⟨c1Valid t, .ok 0, .ok 0⟩

/-- A per-minute data source with no valid minute at all. -/
def miNone : ℕ → ℕ → Except String MinuteData := fun _ _ => .ok ⟨false, .ok 0, .ok 0⟩

/-- A constant month table for concrete runs: January, `day_subtractor = -1`. -/
def mtJan : ℕ → String × ℤ := fun _ => ("01", -1)

/-- The scan result of a day with no valid minute: every hour keyed to an
empty `angle_data` list. -/
def hrsEmpty : List (ℕ × List MinuteData) :=
  [(5, []), (6, []), (7, []), (8, []), (9, []), (10, []), (11, []), (12, []),
    (13, []), (14, []), (15, []), (16, []), (17, []), (18, []), (19, []),
    (20, []), (21, [])]

end

/-!
## Scan-loop lemmas
-/

theorem scanMinutes_all_invalid (mi : ℕ → ℕ → Except String MinuteData) (day hour : ℕ)
    (count : ℕ) : ∀ m acc s, s.has_started = false →
    (∀ j, j < count → ∃ md, mi day (hour * 60 + (m + j)) = .ok md ∧ md.valid = false) →
    scanMinutes mi day hour m count acc s = .ok (acc, s) := by
  induction count with
  | zero => intro m acc s _ _; rfl
  | succ n ih =>
    intro m acc s hs hmi
    obtain ⟨md, hmd, hv⟩ := hmi 0 (Nat.succ_pos n)
    rw [Nat.add_zero] at hmd
    simp only [scanMinutes, hmd, Except.bind, minuteStep, hv, hs]
    simp only [Bool.false_eq_true, if_false]
    exact ih (m + 1) acc s hs (fun j hj => by
      have := hmi (j + 1) (Nat.succ_lt_succ hj)
      rwa [show m + (j + 1) = m + 1 + j by omega] at this)

theorem scanHours_append (mi : ℕ → ℕ → Except String MinuteData) (day : ℕ)
    (l1 l2 : List ℕ) : ∀ acc s, scanHours mi day (l1 ++ l2) acc s =
      (scanHours mi day l1 acc s).bind (fun p => scanHours mi day l2 p.1 p.2) := by
  induction l1 with
  | nil => intro acc s; simp [scanHours, Except.bind]
  | cons h rest ih =>
    intro acc s
    simp only [List.cons_append, scanHours]
    cases hsm : scanMinutes mi day h 0 60 [] s with
    | error e => simp [Except.bind]
    | ok p => simp only [Except.bind]; exact ih _ _

theorem scanHours_all_invalid (mi : ℕ → ℕ → Except String MinuteData) (day : ℕ)
    (hs : List ℕ)
    (hmi : ∀ h ∈ hs, ∀ m, m < 60 → ∃ md, mi day (h * 60 + m) = .ok md ∧ md.valid = false) :
    ∀ acc s, s.has_started = false →
      scanHours mi day hs acc s = .ok (acc ++ hs.map (fun h => (h, [])), s) := by
  induction hs with
  | nil => intro acc s _; simp [scanHours]
  | cons h rest ih =>
    intro acc s hss
    simp only [scanHours]
    rw [scanMinutes_all_invalid mi day h 60 0 [] s hss (fun j hj => by
      simpa using hmi h (by simp) j hj)]
    simp only [Except.bind]
    rw [ih (fun g hg m hm => hmi g (by simp [hg]) m hm) (acc ++ [(h, [])]) s hss]
    simp

theorem scanHours_cons (mi : ℕ → ℕ → Except String MinuteData) (day h : ℕ)
    (rest : List ℕ) (acc : List (ℕ × List MinuteData)) (s : ScanState) :
    scanHours mi day (h :: rest) acc s =
      (scanMinutes mi day h 0 60 [] s).bind (fun p =>
        scanHours mi day rest (acc ++ [(h, p.1)]) p.2) := rfl

theorem except_ok_bind {α β : Type} (a : α) (f : α → Except String β) :
    (Except.ok a : Except String α).bind f = f a := rfl

set_option maxRecDepth 8000 in
/-- Claim C1 (code bug): under the visibility pattern `c1Valid` — the sun
valid exactly at 07:10 and 07:20 — the day scan of `fetch_solar_data`
finishes with `day_start = 07:20` (the last valid minute, because
`has_started` is never assigned `True`, so the `if not has_started` guard
always passes and `day_start_*` is overwritten at every valid minute) and
with `day_end = 00:00` (the `elif has_started` branch is unreachable), while
the claim demands `day_start = 07:10` (first valid minute) and
`day_end = 07:20` (last valid minute). -/
theorem scanDay_records_last_valid_start :
    c1Valid (7 * 60 + 10) = true ∧ c1Valid (7 * 60 + 20) = true ∧
    (scanDay c1MI 0).toOption.map (fun p => p.2) =
      some { has_started := false, day_start_hour := 7, day_start_min := 20,
             day_end_hour := 0, day_end_min := 0 } := by
  refine ⟨rfl, rfl, ?_⟩
  have h56 : ∀ h ∈ ([5, 6] : List ℕ), ∀ m, m < 60 → c1Valid (h * 60 + m) = false := by decide
  have h821 : ∀ h ∈ ([8, 9, 10, 11, 12, 13, 14, 15, 16, 17, 18, 19, 20, 21] : List ℕ),
      ∀ m, m < 60 → c1Valid (h * 60 + m) = false := by decide
  have h7 : scanMinutes c1MI 0 7 0 60 [] initScanState =
      .ok ([⟨true, .ok 0, .ok 0⟩, ⟨true, .ok 0, .ok 0⟩],
        ⟨false, 7, 20, 0, 0⟩) := by rfl
  have hr : hourRange = ([5, 6] : List ℕ) ++ 7 ::
      ([8, 9, 10, 11, 12, 13, 14, 15, 16, 17, 18, 19, 20, 21] : List ℕ) := by rfl
  rw [scanDay, hr, scanHours_append]
  rw [scanHours_all_invalid c1MI 0 [5, 6]
    (fun h hh m hm => ⟨_, rfl, h56 h hh m hm⟩) [] initScanState rfl]
  rw [except_ok_bind]
  rw [scanHours_cons, h7, except_ok_bind]
  rw [scanHours_all_invalid c1MI 0 [8, 9, 10, 11, 12, 13, 14, 15, 16, 17, 18, 19, 20, 21]
    (fun h hh m hm => ⟨_, rfl, h821 h hh m hm⟩) _ _ rfl]
  rfl

/-!
## The winter/summer toggle (C2)
-/

/-- Claim C2: within one year variant the winter/summer flag starts as
winter (`true` — `processYear` seeds the day fold with `true`), the toggle
check flips it exactly when the computed `day_hr` equals 12, and
`processDay` both returns the post-check flag and builds the current day's
records with that same post-check flag — so a toggle triggered on day N
selects the panel normal for day N's own records. -/
theorem winter_toggle_selects_current_day_normal
    (mi : ℕ → ℕ → Except String MinuteData) (mt : ℕ → String × ℤ)
    (d days : ℕ) (flag : Bool) :
    processYear mi mt days = processDays mi mt 0 days [] true ∧
    (∀ h : ℤ, toggleFlag flag h = if h = 12 then !flag else flag) ∧
    (∀ hrs s, scanDay mi d = .ok (hrs, s) →
      processDay mi mt d flag =
        (buildRecords (toggleFlag flag (dayLength s).2) (mt d).1 ((d : ℤ) - (mt d).2)
          hrs []).map
          (fun recs => (recs, toggleFlag flag (dayLength s).2))) := by
  refine ⟨rfl, ?_, ?_⟩
  · intro h
    cases flag <;> by_cases h12 : h = 12 <;> simp [toggleFlag, h12]
  · intro hrs s hscan
    rw [processDay, hscan, except_ok_bind]

/-- Witness for C2: a concrete day (no valid minute, so `day_hr = 12` and
the flag toggles at once), with the hypothesis discharged by evaluation. -/
theorem winter_toggle_selects_current_day_normal_witness :
    scanDay miNone 0 = .ok (hrsEmpty, initScanState) ∧
    processDay miNone mtJan 0 true =
      (buildRecords (toggleFlag true (dayLength initScanState).2) (mtJan 0).1
        ((0 : ℤ) - (mtJan 0).2) hrsEmpty []).map
        (fun recs => (recs, toggleFlag true (dayLength initScanState).2)) := by
  have hscan : scanDay miNone 0 = .ok (hrsEmpty, initScanState) := by
    rw [scanDay, scanHours_all_invalid miNone 0 hourRange
      (fun h _ m _ => ⟨_, rfl, rfl⟩) [] initScanState rfl]
    rfl
  exact ⟨hscan, (winter_toggle_selects_current_day_normal miNone mtJan 0 1
    true).2.2 hrsEmpty initScanState hscan⟩

/-!
## Record counting (C7)
-/

theorem hourRange_eq :
    hourRange = [5, 6, 7, 8, 9, 10, 11, 12, 13, 14, 15, 16, 17, 18, 19, 20, 21] := rfl

theorem scanHours_fst (mi : ℕ → ℕ → Except String MinuteData) (day : ℕ) :
    ∀ (hs : List ℕ) (acc : List (ℕ × List MinuteData)) (s : ScanState) l s',
      scanHours mi day hs acc s = .ok (l, s') →
      l.map Prod.fst = acc.map Prod.fst ++ hs := by
  intro hs
  induction hs with
  | nil =>
    intro acc s l s' h
    simp only [scanHours, Except.ok.injEq, Prod.mk.injEq] at h
    simp [← h.1]
  | cons hd rest ih =>
    intro acc s l s' h
    rw [scanHours_cons] at h
    cases hsm : scanMinutes mi day hd 0 60 [] s with
    | error e => rw [hsm] at h; exact absurd h (by simp [Except.bind])
    | ok p =>
      rw [hsm, except_ok_bind] at h
      have := ih (acc ++ [(hd, p.1)]) p.2 l s' h
      simpa using this

theorem buildRecords_hours (flag : Bool) (month : String) (dom : ℤ) :
    ∀ (hrs : List (ℕ × List MinuteData)) (acc : List HourRecord) l,
      buildRecords flag month dom hrs acc = .ok l →
      l.map HourRecord.hour = acc.map HourRecord.hour ++ hrs.map Prod.fst := by
  intro hrs
  induction hrs with
  | nil =>
    intro acc l h
    simp only [buildRecords, Except.ok.injEq] at h
    simp [← h]
  | cons p rest ih =>
    obtain ⟨hh, ads⟩ := p
    intro acc l h
    simp only [buildRecords] at h
    cases he : hourEfficiencies flag ads [] with
    | error e => rw [he] at h; exact absurd h (by simp [Except.bind])
    | ok effs =>
      rw [he, except_ok_bind] at h
      have := ih (acc ++ [⟨month, dom, hh, effs⟩]) l h
      simpa using this

theorem processDay_hours (mi : ℕ → ℕ → Except String MinuteData) (mt : ℕ → String × ℤ)
    (day : ℕ) (flag : Bool) (recs : List HourRecord) (flag' : Bool)
    (h : processDay mi mt day flag = .ok (recs, flag')) :
    recs.map HourRecord.hour = hourRange := by
  rw [processDay] at h
  cases hs : scanDay mi day with
  | error e => rw [hs] at h; exact absurd h (by simp [Except.bind])
  | ok p =>
    rw [hs, except_ok_bind] at h
    dsimp only at h
    cases hb : buildRecords (toggleFlag flag (dayLength p.2).2) (mt day).1
        ((day : ℤ) - (mt day).2) p.1 [] with
    | error e => rw [hb] at h; exact absurd h (by simp [Except.map])
    | ok l =>
      rw [hb] at h
      simp only [Except.map, Except.ok.injEq, Prod.mk.injEq] at h
      have hfst : p.1.map Prod.fst = hourRange := by
        rw [scanDay] at hs
        have := scanHours_fst mi day hourRange [] initScanState p.1 p.2 (by
          cases p; exact hs)
        simpa using this
      have := buildRecords_hours (toggleFlag flag (dayLength p.2).2) (mt day).1
        ((day : ℤ) - (mt day).2) p.1 [] l hb
      rw [← h.1, this, hfst]
      simp

theorem processDays_hours (mi : ℕ → ℕ → Except String MinuteData)
    (mt : ℕ → String × ℤ) :
    ∀ (count d : ℕ) (acc : List HourRecord) (flag : Bool) l,
      processDays mi mt d count acc flag = .ok l →
      l.map HourRecord.hour = acc.map HourRecord.hour ++ hoursPattern count := by
  intro count
  induction count with
  | zero =>
    intro d acc flag l h
    simp only [processDays, Except.ok.injEq] at h
    simp [← h, hoursPattern]
  | succ n ih =>
    intro d acc flag l h
    simp only [processDays] at h
    cases hp : processDay mi mt d flag with
    | error e => rw [hp] at h; exact absurd h (by simp [Except.bind])
    | ok p =>
      rw [hp, except_ok_bind] at h
      have hrec : p.1.map HourRecord.hour = hourRange := by
        cases p with
        | mk recs flag' => exact processDay_hours mi mt d flag recs flag' hp
      have := ih (d + 1) (acc ++ p.1) p.2 l h
      rw [this]
      simp only [List.map_append, hrec, hoursPattern, hourRange_eq, List.append_assoc]

theorem processYear_hours (mi : ℕ → ℕ → Except String MinuteData)
    (mt : ℕ → String × ℤ) (days : ℕ) (l : List HourRecord)
    (h : processYear mi mt days = .ok l) :
    l.map HourRecord.hour = hoursPattern days := by
  have := processDays_hours mi mt days 0 [] true l h
  simpa using this

theorem hoursPattern_length (n : ℕ) : (hoursPattern n).length = n * 17 := by
  induction n with
  | zero => rfl
  | succ m ih => simp [hoursPattern, ih]; ring

/-- Claim C7: any successful `fetch_solar_data` run returns exactly two
record sequences, of `365 * 17` and `366 * 17` records, whose hour fields
run 5 through 21 inclusive within each consecutive day (the property is
stated over the result, and holds vacuously for an aborted run). -/
theorem fetch_solar_data_record_counts (lat long : ℝ) :
    yearCounts (fetch_solar_data lat long) := by
  rw [fetch_solar_data]
  cases hr : processYear (realMinuteInfo lat long false) month_lookup_regular 365 with
  | error e => simp [Except.bind, yearCounts]
  | ok reg =>
    rw [except_ok_bind]
    cases hl : processYear (realMinuteInfo lat long true) month_lookup_leap 366 with
    | error e => simp [Except.map, yearCounts]
    | ok leap =>
      have h1 := processYear_hours _ _ _ _ hr
      have h2 := processYear_hours _ _ _ _ hl
      simp only [Except.map, yearCounts]
      refine ⟨?_, ?_, h1, h2⟩
      · rw [← List.length_map reg HourRecord.hour, h1, hoursPattern_length]
      · rw [← List.length_map leap HourRecord.hour, h2, hoursPattern_length]

/-!
## Efficiency range (C3)
-/

theorem get_efficiency_coefficient_ok_range (n v : ℝ × ℝ × ℝ) (r : ℝ)
    (h : get_efficiency_coefficient n v = .ok r) : effInRange r := by
  rw [get_efficiency_coefficient] at h
  by_cases h1 : deg (effAngle n v) > 90
  · rw [if_pos h1] at h; exact absurd h (by simp)
  · rw [if_neg h1] at h
    by_cases h2 : deg (effAngle n v) < 0
    · rw [if_pos h2] at h; exact absurd h (by simp)
    · rw [if_neg h2, Except.ok.injEq] at h
      push_neg at h1 h2
      rw [← h, effInRange, abs_of_nonneg h2]
      constructor <;> [linarith; linarith]

theorem realMinuteInfo_good (lat long : ℝ) (il : Bool) :
    MIGood (realMinuteInfo lat long il) := by
  intro day time md h
  rw [realMinuteInfo] at h
  cases hsd : solar_data lat long (day : ℝ) (time : ℝ) (-5) il with
  | error e => rw [hsd] at h; exact absurd h (by simp [Except.map])
  | ok sa =>
    rw [hsd] at h
    simp only [Except.map, Except.ok.injEq] at h
    refine ⟨fun r hr => ?_, fun r hr => ?_⟩ <;> rw [← h] at hr <;>
      exact get_efficiency_coefficient_ok_range _ _ _ hr

theorem minuteStep_mem (hour m : ℕ) (md : MinuteData) (acc : List MinuteData)
    (s : ScanState) : ∀ x ∈ (minuteStep hour m md acc s).1, x ∈ acc ∨ x = md := by
  rw [minuteStep]
  split_ifs <;> intro x hx <;> simp at hx <;> tauto

theorem scanMinutes_good (mi : ℕ → ℕ → Except String MinuteData)
    (hmi : MIGood mi) (day hour : ℕ) :
    ∀ (count m : ℕ) acc s l s', (∀ x ∈ acc, MDGood x) →
      scanMinutes mi day hour m count acc s = .ok (l, s') → ∀ x ∈ l, MDGood x := by
  intro count
  induction count with
  | zero =>
    intro m acc s l s' hacc h
    simp only [scanMinutes, Except.ok.injEq, Prod.mk.injEq] at h
    rw [← h.1]; exact hacc
  | succ c ih =>
    intro m acc s l s' hacc h
    simp only [scanMinutes] at h
    cases hmd : mi day (hour * 60 + m) with
    | error e => rw [hmd] at h; exact absurd h (by simp [Except.bind])
    | ok md =>
      rw [hmd, except_ok_bind] at h
      refine ih (m + 1) _ _ l s' (fun x hx => ?_) h
      rcases minuteStep_mem hour m md acc s x hx with hin | hx
      · exact hacc x hin
      · rw [hx]; exact hmi day (hour * 60 + m) md hmd

theorem scanHours_good (mi : ℕ → ℕ → Except String MinuteData)
    (hmi : MIGood mi) (day : ℕ) :
    ∀ (hs : List ℕ) acc s l s', (∀ p ∈ acc, ∀ x ∈ p.2, MDGood x) →
      scanHours mi day hs acc s = .ok (l, s') →
      ∀ p ∈ l, ∀ x ∈ p.2, MDGood x := by
  intro hs
  induction hs with
  | nil =>
    intro acc s l s' hacc h
    simp only [scanHours, Except.ok.injEq, Prod.mk.injEq] at h
    rw [← h.1]; exact hacc
  | cons hd rest ih =>
    intro acc s l s' hacc h
    rw [scanHours_cons] at h
    cases hsm : scanMinutes mi day hd 0 60 [] s with
    | error e => rw [hsm] at h; exact absurd h (by simp [Except.bind])
    | ok p =>
      rw [hsm, except_ok_bind] at h
      refine ih _ _ l s' (fun q hq x hx => ?_) h
      rcases List.mem_append.1 hq with hin | hone
      · exact hacc q hin x hx
      · have hq1 : q = (hd, p.1) := by simpa using hone
        rw [hq1] at hx
        exact scanMinutes_good mi hmi day hd 60 0 [] s p.1 p.2 (by simp)
          (by cases p; exact hsm) x hx

theorem hourEfficiencies_range (flag : Bool) :
    ∀ (mds : List MinuteData) (acc : List ℝ) l, (∀ x ∈ mds, MDGood x) →
      (∀ x ∈ acc, effInRange x) →
      hourEfficiencies flag mds acc = .ok l → ∀ x ∈ l, effInRange x := by
  intro mds
  induction mds with
  | nil =>
    intro acc l _ hacc h
    simp only [hourEfficiencies, Except.ok.injEq] at h
    rw [← h]; exact hacc
  | cons md rest ih =>
    intro acc l hmds hacc h
    simp only [hourEfficiencies] at h
    cases he : (if flag then md.effW else md.effS) with
    | error e => rw [he] at h; exact absurd h (by simp [Except.bind])
    | ok eff =>
      rw [he, except_ok_bind] at h
      have heff : effInRange eff := by
        have hmd := hmds md (by simp)
        cases flag with
        | false => exact hmd.2 eff (by simpa using he)
        | true => exact hmd.1 eff (by simpa using he)
      refine ih _ l (fun x hx => hmds x (by simp [hx])) (fun x hx => ?_) h
      rcases List.mem_append.1 hx with hin | hone
      · exact hacc x hin
      · rw [show x = eff by simpa using hone]; exact heff

theorem buildRecords_range (flag : Bool) (month : String) (dom : ℤ) :
    ∀ (hrs : List (ℕ × List MinuteData)) acc l,
      (∀ p ∈ hrs, ∀ x ∈ p.2, MDGood x) →
      (∀ rec ∈ acc, ∀ e ∈ rec.efficiency_data, effInRange e) →
      buildRecords flag month dom hrs acc = .ok l →
      ∀ rec ∈ l, ∀ e ∈ rec.efficiency_data, effInRange e := by
  intro hrs
  induction hrs with
  | nil =>
    intro acc l _ hacc h
    simp only [buildRecords, Except.ok.injEq] at h
    rw [← h]; exact hacc
  | cons p rest ih =>
    obtain ⟨hh, ads⟩ := p
    intro acc l hhrs hacc h
    simp only [buildRecords] at h
    cases he : hourEfficiencies flag ads [] with
    | error e => rw [he] at h; exact absurd h (by simp [Except.bind])
    | ok effs =>
      rw [he, except_ok_bind] at h
      have heffs : ∀ x ∈ effs, effInRange x :=
        hourEfficiencies_range flag ads [] effs
          (fun x hx => hhrs (hh, ads) (by simp) x hx) (by simp) he
      refine ih _ l (fun q hq x hx => hhrs q (by simp [hq]) x hx) (fun rec hrec => ?_) h
      rcases List.mem_append.1 hrec with hin | hone
      · exact hacc rec hin
      · rw [show rec = ⟨month, dom, hh, effs⟩ by simpa using hone]
        exact heffs

theorem processDay_range (mi : ℕ → ℕ → Except String MinuteData)
    (hmi : MIGood mi) (mt : ℕ → String × ℤ) (day : ℕ) (flag : Bool)
    (recs : List HourRecord) (flag' : Bool)
    (h : processDay mi mt day flag = .ok (recs, flag')) :
    ∀ rec ∈ recs, ∀ e ∈ rec.efficiency_data, effInRange e := by
  rw [processDay] at h
  cases hs : scanDay mi day with
  | error e => rw [hs] at h; exact absurd h (by simp [Except.bind])
  | ok p =>
    rw [hs, except_ok_bind] at h
    dsimp only at h
    cases hb : buildRecords (toggleFlag flag (dayLength p.2).2) (mt day).1
        ((day : ℤ) - (mt day).2) p.1 [] with
    | error e => rw [hb] at h; exact absurd h (by simp [Except.map])
    | ok l =>
      rw [hb] at h
      simp only [Except.map, Except.ok.injEq, Prod.mk.injEq] at h
      have hgood : ∀ q ∈ p.1, ∀ x ∈ q.2, MDGood x := by
        rw [scanDay] at hs
        exact scanHours_good mi hmi day hourRange [] initScanState p.1 p.2
          (by simp) (by cases p; exact hs)
      rw [← h.1]
      exact buildRecords_range _ _ _ p.1 [] l hgood (by simp) hb

theorem processDays_range (mi : ℕ → ℕ → Except String MinuteData)
    (hmi : MIGood mi) (mt : ℕ → String × ℤ) :
    ∀ (count d : ℕ) acc (flag : Bool) l,
      (∀ rec ∈ acc, ∀ e ∈ rec.efficiency_data, effInRange e) →
      processDays mi mt d count acc flag = .ok l →
      ∀ rec ∈ l, ∀ e ∈ rec.efficiency_data, effInRange e := by
  intro count
  induction count with
  | zero =>
    intro d acc flag l hacc h
    simp only [processDays, Except.ok.injEq] at h
    rw [← h]; exact hacc
  | succ n ih =>
    intro d acc flag l hacc h
    simp only [processDays] at h
    cases hp : processDay mi mt d flag with
    | error e => rw [hp] at h; exact absurd h (by simp [Except.bind])
    | ok p =>
      rw [hp, except_ok_bind] at h
      refine ih (d + 1) _ p.2 l (fun rec hrec => ?_) h
      rcases List.mem_append.1 hrec with hin | hnew
      · exact hacc rec hin
      · exact processDay_range mi hmi mt d flag p.1 p.2 (by cases p; exact hp)
          rec hnew

/-- Claim C3: every element of every record's `efficiency_data` produced by
a successful `fetch_solar_data` run (both year variants) lies in the closed
interval `[0, 0.90]` (vacuous for an aborted run). -/
theorem fetch_solar_data_efficiency_in_range (lat long : ℝ) :
    allEffInRange (fetch_solar_data lat long) := by
  rw [fetch_solar_data]
  cases hr : processYear (realMinuteInfo lat long false) month_lookup_regular 365 with
  | error e => simp [Except.bind, allEffInRange]
  | ok reg =>
    rw [except_ok_bind]
    cases hl : processYear (realMinuteInfo lat long true) month_lookup_leap 366 with
    | error e => simp [Except.map, allEffInRange]
    | ok leap =>
      simp only [Except.map, allEffInRange]
      intro rec hrec
      rcases List.mem_append.1 hrec with hin | hin
      · exact processDays_range _ (realMinuteInfo_good lat long false) _ 365 0 []
          true reg (by simp) hr rec hin
      · exact processDays_range _ (realMinuteInfo_good lat long true) _ 366 0 []
          true leap (by simp) hl rec hin

/-!
## Degree/radian conversion lemmas
-/

theorem deg_rad (x : ℝ) : deg (rad x) = x := by
  rw [deg, rad]
  field_simp

theorem deg_zero : deg 0 = 0 := by
  rw [deg]
  simp

/-!
## The azimuth quadrant dispatch (C5, C8)
-/

theorem hour_angle_deg_gt_90 (x : ℝ) (h0 : x ≠ 0) (h1 : x ≠ -90) (h2 : x ≠ 90)
    (h3 : ¬(x < -90 ∨ (x > -90 ∧ x < 0) ∨ (x > 0 ∧ x < 90))) : 90 < x := by
  push_neg at h3
  obtain ⟨ha, hb, hc⟩ := h3
  have hgt : -90 < x := ha.lt_of_ne (fun hh => h1 hh.symm)
  have h0lt : 0 < x := (hb hgt).lt_of_ne (fun hh => h0 hh.symm)
  exact (hc h0lt).lt_of_ne (fun hh => h2 hh.symm)

theorem solar_azimuth_angle_eq (latitude d_angle sh_angle e_angle : ℝ) :
    solar_azimuth_angle latitude d_angle sh_angle e_angle =
      .ok (azimuthValue sh_angle) := by
  rw [solar_azimuth_angle, azimuthValue]
  by_cases h0 : deg sh_angle = 0
  · rw [if_pos h0, if_pos h0]
  · rw [if_neg h0, if_neg h0]
    by_cases h1 : deg sh_angle = -90
    · rw [if_pos h1, if_pos h1]
    · rw [if_neg h1, if_neg h1]
      by_cases h2 : deg sh_angle = 90
      · rw [if_pos h2, if_pos h2]
      · rw [if_neg h2, if_neg h2]
        by_cases h3 : deg sh_angle < -90 ∨ (deg sh_angle > 0 ∧ deg sh_angle < 90)
            ∨ (deg sh_angle > -90 ∧ deg sh_angle < 0)
        · have hspec : deg sh_angle < -90 ∨ (deg sh_angle > -90 ∧ deg sh_angle < 0)
              ∨ (deg sh_angle > 0 ∧ deg sh_angle < 90) := by tauto
          rw [if_pos h3, if_pos hspec]
        · have hspec : ¬(deg sh_angle < -90 ∨ (deg sh_angle > -90 ∧ deg sh_angle < 0)
              ∨ (deg sh_angle > 0 ∧ deg sh_angle < 90)) := by tauto
          rw [if_neg h3, if_neg hspec,
            if_pos (hour_angle_deg_gt_90 (deg sh_angle) h0 h1 h2 hspec)]

/-- Claim C5: the azimuth quadrant dispatch is total — for every real
hour angle `solar_azimuth_angle` returns exactly the value `azimuthValue`
of the spec's case list (in particular `-90°` in radians when the hour
angle in degrees is 0, whatever the latitude, declination and elevation),
and the internal-consistency `raise` branch is unreachable. -/
theorem solar_azimuth_angle_characterization
    (latitude d_angle sh_angle e_angle : ℝ) :
    solar_azimuth_angle latitude d_angle sh_angle e_angle =
      .ok (azimuthValue sh_angle) ∧
    (deg sh_angle = 0 → azimuthValue sh_angle = rad (-90)) ∧
    ∀ msg, solar_azimuth_angle latitude d_angle sh_angle e_angle ≠ .error msg := by
  refine ⟨solar_azimuth_angle_eq latitude d_angle sh_angle e_angle,
    fun h0 => by rw [azimuthValue, if_pos h0], fun msg hmsg => ?_⟩
  rw [solar_azimuth_angle_eq latitude d_angle sh_angle e_angle] at hmsg
  exact absurd hmsg (by simp)

theorem azimuthValue_deg_range (sh_angle : ℝ)
    (hlo : -270 < deg sh_angle) (hhi : deg sh_angle < 450) :
    -180 ≤ deg (azimuthValue sh_angle) ∧ deg (azimuthValue sh_angle) ≤ 180 := by
  have hdeg4 : deg (-sh_angle - rad 90) = -deg sh_angle - 90 := by
    rw [deg, rad, deg]
    field_simp
    ring
  have hdeg5 : deg (rad 270 - sh_angle) = 270 - deg sh_angle := by
    rw [deg, rad, deg]
    field_simp
    ring
  rw [azimuthValue]
  by_cases h0 : deg sh_angle = 0
  · rw [if_pos h0, deg_rad]; norm_num
  · rw [if_neg h0]
    by_cases h1 : deg sh_angle = -90
    · rw [if_pos h1, deg_zero]; norm_num
    · rw [if_neg h1]
      by_cases h2 : deg sh_angle = 90
      · rw [if_pos h2, deg_rad]; norm_num
      · rw [if_neg h2]
        by_cases h3 : deg sh_angle < -90 ∨ (deg sh_angle > -90 ∧ deg sh_angle < 0)
            ∨ (deg sh_angle > 0 ∧ deg sh_angle < 90)
        · rw [if_pos h3, hdeg4]
          rcases h3 with h | ⟨ha, hb⟩ | ⟨ha, hb⟩ <;> constructor <;> linarith
        · rw [if_neg h3, hdeg5]
          have hgt := hour_angle_deg_gt_90 (deg sh_angle) h0 h1 h2 h3
          constructor <;> linarith

theorem solar_elevation_angle_deg_range (latitude d_angle sh_angle : ℝ) :
    -90 ≤ deg (solar_elevation_angle latitude d_angle sh_angle) ∧
    deg (solar_elevation_angle latitude d_angle sh_angle) ≤ 90 := by
  rw [solar_elevation_angle, deg]
  have h1 := Real.arcsin_le_pi_div_two (Real.sin (rad latitude) * Real.sin d_angle
    + Real.cos (rad latitude) * Real.cos d_angle * Real.cos sh_angle)
  have h2 := Real.neg_pi_div_two_le_arcsin (Real.sin (rad latitude) * Real.sin d_angle
    + Real.cos (rad latitude) * Real.cos d_angle * Real.cos sh_angle)
  have hπ := Real.pi_pos
  constructor
  · rw [le_div_iff₀ hπ]
    nlinarith
  · rw [div_le_iff₀ hπ]
    nlinarith

theorem eot_bound (time day : ℝ) (il : Bool) : |eot time day il| ≤ 20.51 := by
  have h1 := Real.neg_one_le_cos (fractional_year time day il)
  have h2 := Real.cos_le_one (fractional_year time day il)
  have h3 := Real.neg_one_le_sin (fractional_year time day il)
  have h4 := Real.sin_le_one (fractional_year time day il)
  have h5 := Real.neg_one_le_cos (2 * fractional_year time day il)
  have h6 := Real.cos_le_one (2 * fractional_year time day il)
  have h7 := Real.neg_one_le_sin (2 * fractional_year time day il)
  have h8 := Real.sin_le_one (2 * fractional_year time day il)
  rw [abs_le, eot]
  constructor <;> nlinarith

theorem deg_solar_hour_angle (time day longitude tz : ℝ) (il : Bool) :
    deg (solar_hour_angle time day longitude tz il) =
      c_lst time day longitude tz il / 4 - 180 := by
  rw [solar_hour_angle, deg_rad]

/-- Claim C8: on the generator's input range (geographic longitude, minute
of day between 05:00 and 21:59, the hardcoded `tz_offset = -5`, any real
day, latitude, declination and elevation), the elevation angle is within
`[-90°, 90°]` and the azimuth angle returned by the quadrant dispatch is
within `[-180°, 180°]`. -/
theorem solar_angle_ranges (latitude longitude day time d_angle e_angle : ℝ)
    (il : Bool) (hlo : -180 ≤ longitude) (hhi : longitude ≤ 180)
    (ht0 : 300 ≤ time) (ht1 : time ≤ 1319) :
    (-90 ≤ deg (solar_elevation_angle latitude d_angle
        (solar_hour_angle time day longitude (-5) il)) ∧
      deg (solar_elevation_angle latitude d_angle
        (solar_hour_angle time day longitude (-5) il)) ≤ 90) ∧
    ∀ az, solar_azimuth_angle latitude d_angle
        (solar_hour_angle time day longitude (-5) il) e_angle = .ok az →
      -180 ≤ deg az ∧ deg az ≤ 180 := by
  refine ⟨solar_elevation_angle_deg_range latitude d_angle _, fun az haz => ?_⟩
  rw [solar_azimuth_angle_eq, Except.ok.injEq] at haz
  have hb := eot_bound time day il
  rw [abs_le] at hb
  have hcl : c_lst time day longitude (-5) il =
      time + eot time day il + 4 * (longitude + 75) := by
    rw [c_lst]; ring
  have hdeg := deg_solar_hour_angle time day longitude (-5) il
  rw [hcl] at hdeg
  have hr1 : -270 < deg (solar_hour_angle time day longitude (-5) il) := by
    rw [hdeg]; linarith [hb.1]
  have hr2 : deg (solar_hour_angle time day longitude (-5) il) < 450 := by
    rw [hdeg]; linarith [hb.2]
  rw [← haz]
  exact azimuthValue_deg_range _ hr1 hr2

/-- Witness for C8 at a concrete input. -/
theorem solar_angle_ranges_witness :
    ((-180 ≤ (0 : ℝ) ∧ (0 : ℝ) ≤ 180) ∧ (300 ≤ (720 : ℝ) ∧ (720 : ℝ) ≤ 1319)) ∧
    ((-90 ≤ deg (solar_elevation_angle 40 0
        (solar_hour_angle 720 0 0 (-5) false)) ∧
      deg (solar_elevation_angle 40 0
        (solar_hour_angle 720 0 0 (-5) false)) ≤ 90) ∧
    ∀ az, solar_azimuth_angle 40 0
        (solar_hour_angle 720 0 0 (-5) false) 0 = .ok az →
      -180 ≤ deg az ∧ deg az ≤ 180) :=
  ⟨⟨⟨by norm_num, by norm_num⟩, ⟨by norm_num, by norm_num⟩⟩,
    solar_angle_ranges 40 0 0 720 0 0 false (by norm_num) (by norm_num)
      (by norm_num) (by norm_num)⟩

/-!
## The efficiency-coefficient domain check (C4)
-/

theorem deg_effAngle_nonneg (panel_normal solar_vector : ℝ × ℝ × ℝ) :
    0 ≤ deg (effAngle panel_normal solar_vector) := by
  obtain ⟨xa, ya, za⟩ := panel_normal
  obtain ⟨xb, yb, zb⟩ := solar_vector
  rw [effAngle, deg]
  exact div_nonneg (mul_nonneg (Real.arccos_nonneg _) (by norm_num)) Real.pi_pos.le

/-- Claim C4: for every pair of nonzero vectors,
`get_efficiency_coefficient` computes the angle between them as
`acos(dot / (|a| * |b|))` (the definition of `effAngle`), raises a domain
error exactly when that angle in degrees lies outside `[0, 90]`, and
otherwise returns `(90 - |angle in degrees|) / 100`. -/
theorem get_efficiency_coefficient_domain (panel_normal solar_vector : ℝ × ℝ × ℝ)
    (hn : panel_normal ≠ (0, 0, 0)) (hv : solar_vector ≠ (0, 0, 0)) :
    ((∃ msg, get_efficiency_coefficient panel_normal solar_vector = .error msg) ↔
      ¬ (0 ≤ deg (effAngle panel_normal solar_vector) ∧
        deg (effAngle panel_normal solar_vector) ≤ 90)) ∧
    ∀ r, get_efficiency_coefficient panel_normal solar_vector = .ok r →
      r = (90 - |deg (effAngle panel_normal solar_vector)|) / 100 := by
  have h0 := deg_effAngle_nonneg panel_normal solar_vector
  rw [get_efficiency_coefficient]
  by_cases h1 : deg (effAngle panel_normal solar_vector) > 90
  · rw [if_pos h1]
    refine ⟨⟨fun _ => ?_, fun _ => ⟨_, rfl⟩⟩, fun r hr => absurd hr (by simp)⟩
    push_neg
    intro
    linarith
  · rw [if_neg h1, if_neg (not_lt.2 h0)]
    push_neg at h1
    refine ⟨⟨fun hex => ?_, fun hcon => absurd ⟨h0, h1⟩ hcon⟩, fun r hr => ?_⟩
    · obtain ⟨msg, hmsg⟩ := hex
      exact absurd hmsg (by simp)
    · rw [Except.ok.injEq] at hr
      exact hr.symm

/-- Witness for C4 at the concrete pair `(0,0,1)`, `(0,0,1)` — additionally
evaluating the coefficient there to `0.9` (angle `0°`). -/
theorem get_efficiency_coefficient_domain_witness :
    (((0 : ℝ), (0 : ℝ), (1 : ℝ)) ≠ ((0 : ℝ), (0 : ℝ), (0 : ℝ))) ∧
    (((∃ msg, get_efficiency_coefficient (0, 0, 1) (0, 0, 1) = .error msg) ↔
      ¬ (0 ≤ deg (effAngle (0, 0, 1) (0, 0, 1)) ∧
        deg (effAngle (0, 0, 1) (0, 0, 1)) ≤ 90)) ∧
    ∀ r, get_efficiency_coefficient (0, 0, 1) (0, 0, 1) = .ok r →
      r = (90 - |deg (effAngle (0, 0, 1) (0, 0, 1))|) / 100) ∧
    get_efficiency_coefficient (0, 0, 1) (0, 0, 1) = .ok 0.9 := by
  have hne : (((0 : ℝ), (0 : ℝ), (1 : ℝ)) ≠ ((0 : ℝ), (0 : ℝ), (0 : ℝ))) := by
    simp [Prod.ext_iff]
  have hangle : effAngle ((0 : ℝ), (0 : ℝ), (1 : ℝ)) ((0 : ℝ), (0 : ℝ), (1 : ℝ)) = 0 := by
    rw [effAngle]
    norm_num [Real.sqrt_one, Real.arccos_one]
  refine ⟨hne, get_efficiency_coefficient_domain (0, 0, 1) (0, 0, 1) hne hne, ?_⟩
  rw [get_efficiency_coefficient, hangle, deg_zero]
  norm_num

/-!
## The solar vector (C6, C10)
-/

/-- Claim C6: whenever the denominator `d^2 + b^2 * c^2` of
`get_solar_vector` is nonzero, the returned 3-vector has Euclidean norm
exactly 1. -/
theorem get_solar_vector_unit_norm (e_angle a_angle : ℝ)
    (h : Real.cos a_angle ^ 2 + Real.sin e_angle ^ 2 * Real.cos a_angle ^ 2 ≠ 0) :
    Real.sqrt ((get_solar_vector e_angle a_angle).1 ^ 2 +
      (get_solar_vector e_angle a_angle).2.1 ^ 2 +
      (get_solar_vector e_angle a_angle).2.2 ^ 2) = 1 := by
  set a := Real.cos e_angle with ha
  set b := Real.sin e_angle with hb
  set c := Real.cos a_angle with hc
  have hden : 0 < c ^ 2 + b ^ 2 * c ^ 2 := lt_of_le_of_ne (by positivity) (Ne.symm h)
  set t := (b ^ 2 * c ^ 2) / (c ^ 2 + b ^ 2 * c ^ 2) with ht
  have ht0 : 0 ≤ t := by positivity
  have ht1 : t ≤ 1 := by
    rw [ht, div_le_one hden]
    nlinarith [sq_nonneg c]
  have h1 : (get_solar_vector e_angle a_angle).1 = Real.sqrt t := rfl
  have h2 : (get_solar_vector e_angle a_angle).2.1 = -a * Real.sqrt (1 - t) := rfl
  have h3 : (get_solar_vector e_angle a_angle).2.2 = b * Real.sqrt (1 - t) := rfl
  have hs1 : Real.sqrt t ^ 2 = t := Real.sq_sqrt ht0
  have hs2 : Real.sqrt (1 - t) ^ 2 = 1 - t := Real.sq_sqrt (by linarith)
  have hab : a ^ 2 + b ^ 2 = 1 := Real.cos_sq_add_sin_sq e_angle
  have hsum : (get_solar_vector e_angle a_angle).1 ^ 2 +
      (get_solar_vector e_angle a_angle).2.1 ^ 2 +
      (get_solar_vector e_angle a_angle).2.2 ^ 2 = 1 := by
    rw [h1, h2, h3]
    calc Real.sqrt t ^ 2 + (-a * Real.sqrt (1 - t)) ^ 2 + (b * Real.sqrt (1 - t)) ^ 2
        = Real.sqrt t ^ 2 + (a ^ 2 + b ^ 2) * Real.sqrt (1 - t) ^ 2 := by ring
      _ = t + 1 * (1 - t) := by rw [hs1, hs2, hab]
      _ = 1 := by ring
  rw [hsum, Real.sqrt_one]

/-- Witness for C6 at `e_angle = 0`, `a_angle = 0`. -/
theorem get_solar_vector_unit_norm_witness :
    (Real.cos 0 ^ 2 + Real.sin 0 ^ 2 * Real.cos 0 ^ 2 ≠ 0) ∧
    Real.sqrt ((get_solar_vector 0 0).1 ^ 2 +
      (get_solar_vector 0 0).2.1 ^ 2 + (get_solar_vector 0 0).2.2 ^ 2) = 1 := by
  have hne : Real.cos 0 ^ 2 + Real.sin 0 ^ 2 * Real.cos 0 ^ 2 ≠ 0 := by
    rw [Real.cos_zero, Real.sin_zero]
    norm_num
  exact ⟨hne, get_solar_vector_unit_norm 0 0 hne⟩

theorem get_solar_vector_x (e_angle a_angle : ℝ) (hc : Real.cos a_angle ≠ 0) :
    (get_solar_vector e_angle a_angle).1 =
      |Real.sin e_angle| / Real.sqrt (1 + Real.sin e_angle ^ 2) := by
  have h1 : (get_solar_vector e_angle a_angle).1 = Real.sqrt
      ((Real.sin e_angle ^ 2 * Real.cos a_angle ^ 2) /
        (Real.cos a_angle ^ 2 + Real.sin e_angle ^ 2 * Real.cos a_angle ^ 2)) := rfl
  have harg : (Real.sin e_angle ^ 2 * Real.cos a_angle ^ 2) /
      (Real.cos a_angle ^ 2 + Real.sin e_angle ^ 2 * Real.cos a_angle ^ 2) =
      Real.sin e_angle ^ 2 / (1 + Real.sin e_angle ^ 2) := by
    have hc2 : Real.cos a_angle ^ 2 ≠ 0 := pow_ne_zero 2 hc
    have hd : (1 : ℝ) + Real.sin e_angle ^ 2 ≠ 0 := by positivity
    field_simp
    ring
  rw [h1, harg, Real.sqrt_div (sq_nonneg _), Real.sqrt_sq_eq_abs]

/-- Claim C10: the x-component of `get_solar_vector` does not depend on the
azimuth whenever the azimuth cosine is nonzero — both local values `c` and
`d` of the source are `cos(a_angle)`, so the azimuth cancels and the
x-component is `|sin e| / sqrt(1 + sin² e)`. -/
theorem get_solar_vector_x_ignores_azimuth (e_angle a1 a2 : ℝ)
    (h1 : Real.cos a1 ≠ 0) (h2 : Real.cos a2 ≠ 0) :
    (get_solar_vector e_angle a1).1 = (get_solar_vector e_angle a2).1 ∧
    (get_solar_vector e_angle a1).1 =
      |Real.sin e_angle| / Real.sqrt (1 + Real.sin e_angle ^ 2) := by
  have hx1 := get_solar_vector_x e_angle a1 h1
  have hx2 := get_solar_vector_x e_angle a2 h2
  exact ⟨hx1.trans hx2.symm, hx1⟩

/-- Witness for C10 at `e_angle = 0`, azimuths `0` and `π`. -/
theorem get_solar_vector_x_ignores_azimuth_witness :
    (Real.cos 0 ≠ 0 ∧ Real.cos Real.pi ≠ 0) ∧
    ((get_solar_vector 0 0).1 = (get_solar_vector 0 Real.pi).1 ∧
      (get_solar_vector 0 0).1 = |Real.sin 0| / Real.sqrt (1 + Real.sin 0 ^ 2)) := by
  have hc0 : Real.cos 0 ≠ 0 := by rw [Real.cos_zero]; norm_num
  have hcπ : Real.cos Real.pi ≠ 0 := by rw [Real.cos_pi]; norm_num
  exact ⟨⟨hc0, hcπ⟩, get_solar_vector_x_ignores_azimuth 0 0 Real.pi hc0 hcπ⟩

/-!
## The hourly production formula (C9)
-/

theorem foldl_add_map (f : ℝ → ℝ) :
    ∀ (l : List ℝ) (a : ℝ), l.foldl (fun acc e => acc + f e) a = a + (l.map f).sum := by
  intro l
  induction l with
  | nil => intro a; simp
  | cons x xs ih =>
    intro a
    simp only [List.foldl_cons, List.map_cons, List.sum_cons, ih]
    ring

/-- Claim C9: `calc_hourly_production` returns the sum, over the hour's
minute-coefficients `e`, of `round(610 * 90 * e * temp_drop * (1 - C/100) /
1000, 3)`, divided by 60, where `temp_drop` is 1 for Celsius temperatures at
most 25 and `1 - 0.03 * (T_c - 25)` above; and for `T = 86°F, C = 50%,
efficiency_data = [0.5]` the pre-division accumulation equals
`round(610 * 90 * 0.5 * 0.85 * 0.5 / 1000, 3)`. -/
theorem calc_hourly_production_formula (temp cloud_cover : ℝ)
    (efficiency_data : List ℝ) (hne : efficiency_data ≠ []) :
    calc_hourly_production temp cloud_cover efficiency_data =
      (efficiency_data.map (fun e => round3 (610 * 90 *
        (e * (if (temp - 32) / 1.8 ≤ 25 then 1 else 1 - 0.03 * ((temp - 32) / 1.8 - 25))
          * (1 - cloud_cover / 100)) / 1000))).sum / 60 ∧
    hourly_production_sum 86 50 [0.5] = round3 (610 * 90 * 0.5 * 0.85 * 0.5 / 1000) := by
  constructor
  · have hdrop : (if (temp - 32) / 1.8 > 25 then 1 - ((temp - 32) / 1.8 - 25) * 0.03
        else (1 : ℝ)) =
        (if (temp - 32) / 1.8 ≤ 25 then (1 : ℝ)
          else 1 - 0.03 * ((temp - 32) / 1.8 - 25)) := by
      by_cases hc : (temp - 32) / 1.8 > 25
      · rw [if_pos hc, if_neg (not_le.2 hc)]; ring
      · rw [if_neg hc, if_pos (not_lt.1 hc)]
    rw [calc_hourly_production, hourly_production_sum]
    rw [hdrop, foldl_add_map]
    rw [zero_add]
  · rw [hourly_production_sum]
    rw [if_pos (by norm_num : ((86 : ℝ) - 32) / 1.8 > 25)]
    simp only [List.foldl_cons, List.foldl_nil, zero_add]
    congr 1
    norm_num

/-- Witness for C9: the scenario of the spec, `T = 86°F`, `C = 50%`,
`efficiency_data = [0.5]`. -/
theorem calc_hourly_production_formula_witness :
    (([0.5] : List ℝ) ≠ []) ∧
    (calc_hourly_production 86 50 [0.5] =
      (([0.5] : List ℝ).map (fun e => round3 (610 * 90 *
        (e * (if ((86 : ℝ) - 32) / 1.8 ≤ 25 then 1 else 1 - 0.03 * (((86 : ℝ) - 32) / 1.8 - 25))
          * (1 - (50 : ℝ) / 100)) / 1000))).sum / 60 ∧
    hourly_production_sum 86 50 [0.5] = round3 (610 * 90 * 0.5 * 0.85 * 0.5 / 1000)) :=
  ⟨by simp, calc_hourly_production_formula 86 50 [0.5] (by simp)⟩

end SolarCalc
